import Mathlib

/-!
Verification of the SIM shared-memory transport library.

The development shallowly embeds the three transport engines:
BARQ (double-buffer, basic tier), CASIR (double-buffer, cache-tuned tier)
and SAHM (per-reader ring fan-out), together with the cache probe helpers.
Shared-memory words become record fields, atomic stores become functional
record updates, and the wall clock is passed in as an explicit parameter.
Payload bytes are modelled as lists of natural numbers.
-/

namespace BARQ

/-- Shared-memory header of the basic double-buffer tier, following
`BARQ::Header` in `include/barq.hpp`: a front index, a per-slot metadata
triple (sequence, timestamp, length) for each of the two slots, and the
writer statistics line. -/
structure Header where
  front_idx : Nat
  seq0 : Nat
  seq1 : Nat
  ts0 : Int
  ts1 : Int
  len0 : Nat
  len1 : Nat
  heartbeat_ns : Int
  total_writes : Nat
  total_bytes : Nat
deriving Repr, DecidableEq

/-- Writer-side state of `BARQ::Writer`: the readiness flag, the declared
capacity, the local frame counter and the mapped region (header plus the
two payload slots). -/
structure Writer where
  is_initialized : Bool
  max_size : Nat
  frame_count : Nat
  header : Header
  buffer0 : List Nat
  buffer1 : List Nat
deriving Repr, DecidableEq

/-- Model of `memcpy(dst, src, size)`: the first `size` bytes of the
destination are replaced by the first `size` bytes of the source. -/
def memcpyInto (dst src : List Nat) (size : Nat) : List Nat :=
  src.take size ++ dst.drop size

/-- Writer state immediately after a successful `Writer::init`: all header
counters zeroed, heartbeat set to the current time, slots empty. -/
def Writer.afterInit (max_size : Nat) (now : Int) (cap0 cap1 : List Nat) : Writer :=
  { is_initialized := true
    max_size := max_size
    frame_count := 0
    header :=
      { front_idx := 0, seq0 := 0, seq1 := 0, ts0 := 0, ts1 := 0
        len0 := 0, len1 := 0, heartbeat_ns := now
        total_writes := 0, total_bytes := 0 }
    buffer0 := cap0
    buffer1 := cap1 }

/-- Model of `BARQ::Writer::write` (barq.cpp lines 177-211): guard, copy
into the back slot, publish the back slot's metadata triple with the
incremented frame counter, refresh the heartbeat, flip the front index.
The statistics counters are not touched on this path. -/
def Writer.write (w : Writer) (data : List Nat) (size : Nat) (now : Int) :
    Bool × Writer :=
  if !w.is_initialized || size > w.max_size then (false, w)
  else
    let front := w.header.front_idx
    let back := 1 - front
    let w' := if back = 0
      then { w with buffer0 := memcpyInto w.buffer0 data size }
      else { w with buffer1 := memcpyInto w.buffer1 data size }
    let fc := w'.frame_count + 1
    let h := w'.header
    let h' := if back = 0
      then { h with len0 := size, ts0 := now, seq0 := fc }
      else { h with len1 := size, ts1 := now, seq1 := fc }
    let h'' := { h' with heartbeat_ns := now, front_idx := back }
    (true, { w' with frame_count := fc, header := h'' })

/-- Model of `BARQ::Writer::commit` (barq.cpp lines 219-245): same
publication protocol as `write` without the copy, additionally adding one
to total-writes and `size` to total-bytes. -/
def Writer.commit (w : Writer) (size : Nat) (now : Int) : Bool × Writer :=
  if !w.is_initialized || size > w.max_size then (false, w)
  else
    let front := w.header.front_idx
    let back := 1 - front
    let fc := w.frame_count + 1
    let h := w.header
    let h' := if back = 0
      then { h with len0 := size, ts0 := now, seq0 := fc }
      else { h with len1 := size, ts1 := now, seq1 := fc }
    let h'' := { h' with heartbeat_ns := now, front_idx := back,
                         total_writes := h'.total_writes + 1,
                         total_bytes := h'.total_bytes + size }
    (true, { w with frame_count := fc, header := h'' })

/-- One writer-side operation: either an immediate `write` of a payload or
a `commit` of a zero-copy preparation, each tagged with the clock value
observed during the call. -/
inductive WOp where
  | write (data : List Nat) (size : Nat) (now : Int)
  | commit (size : Nat) (now : Int)
deriving Repr, DecidableEq

/-- Application of a single writer operation, returning the success flag
and the successor state. -/
def applyOp (w : Writer) (op : WOp) : Bool × Writer :=
  match op with
  | .write data size now => w.write data size now
  | .commit size now => w.commit size now

/-- State reached from `w` after running a list of writer operations. -/
def runOps (w : Writer) (ops : List WOp) : Writer :=
  ops.foldl (fun s op => (applyOp s op).2) w

/-- Reader-side cursor state of `BARQ::Reader`: readiness, last observed
sequence and the local dropped-frame counter. -/
structure Reader where
  is_initialized : Bool
  last_seq : Nat
  dropped : Nat
deriving Repr, DecidableEq

/-- Model of `BARQ::Reader::getLatest` (barq.cpp lines 346-383): select
the front slot, return `none` when its sequence equals the last observed
one, otherwise add to the dropped counter only when the last observed
sequence was positive and the gap exceeds one, then update the cursor and
return the slot index with its length and timestamp. -/
def Reader.getLatest (r : Reader) (h : Header) :
    Option (Nat × Nat × Int) × Reader :=
  if !r.is_initialized then (none, r)
  else
    let front := h.front_idx
    let seq := if front = 0 then h.seq0 else h.seq1
    let len := if front = 0 then h.len0 else h.len1
    let ts := if front = 0 then h.ts0 else h.ts1
    if seq = r.last_seq then (none, r)
    else
      let r' := if r.last_seq > 0 && seq > r.last_seq + 1
        then { r with dropped := r.dropped + (seq - r.last_seq - 1) }
        else r
      (some (front, len, ts), { r' with last_seq := seq })

/-- Sequence number a reader observes on a header snapshot: the metadata
of the slot selected by the front index. -/
def obsSeq (h : Header) : Nat :=
  if h.front_idx = 0 then h.seq0 else h.seq1

end BARQ

namespace CASIR

/-- Shared-memory header of the cache-tuned double-buffer tier, following
`CASIR::Header` in `include/casir.hpp`: per-slot frame counters and
timestamps, but a single shared `published_length` word on the writer
state line, plus the statistics line. -/
structure Header where
  front_idx : Nat
  frame0 : Nat
  frame1 : Nat
  timestamp0_ns : Int
  timestamp1_ns : Int
  published_length : Nat
  writer_heartbeat_ns : Int
  total_writes : Nat
  total_bytes : Nat
deriving Repr, DecidableEq

/-- Writer-side state of `CASIR::Writer`. -/
structure Writer where
  is_initialized : Bool
  max_size : Nat
  frame_count : Nat
  header : Header
  buffer0 : List Nat
  buffer1 : List Nat
deriving Repr, DecidableEq

/-- Writer state immediately after a successful `CASIR::Writer::init`. -/
def Writer.afterInit (max_size : Nat) (cap0 cap1 : List Nat) : Writer :=
  { is_initialized := true
    max_size := max_size
    frame_count := 0
    header :=
      { front_idx := 0, frame0 := 0, frame1 := 0
        timestamp0_ns := 0, timestamp1_ns := 0
        published_length := 0, writer_heartbeat_ns := 0
        total_writes := 0, total_bytes := 0 }
    buffer0 := cap0
    buffer1 := cap1 }

/-- Model of `CASIR::Writer::write` (casir.cpp lines 221-252): guard, copy
into the back slot, store the back slot's frame counter and timestamp,
store the shared published length and heartbeat, flip the front index.
The statistics counters are not touched on this path. -/
def Writer.write (w : Writer) (data : List Nat) (size : Nat) (now : Int) :
    Bool × Writer :=
  if !w.is_initialized || size > w.max_size then (false, w)
  else
    let front := w.header.front_idx
    let back := 1 - front
    let w' := if back = 0
      then { w with buffer0 := BARQ.memcpyInto w.buffer0 data size }
      else { w with buffer1 := BARQ.memcpyInto w.buffer1 data size }
    let fc := w'.frame_count + 1
    let h := w'.header
    let h' := if back = 0
      then { h with frame0 := fc, timestamp0_ns := now }
      else { h with frame1 := fc, timestamp1_ns := now }
    let h'' := { h' with published_length := size,
                         writer_heartbeat_ns := now, front_idx := back }
    (true, { w' with frame_count := fc, header := h'' })

/-- Model of `CASIR::Writer::commitWrite` (casir.cpp lines 295-322): same
publication protocol without the copy, additionally adding one to
total-writes and `size` to total-bytes. -/
def Writer.commitWrite (w : Writer) (size : Nat) (now : Int) : Bool × Writer :=
  if !w.is_initialized || size > w.max_size then (false, w)
  else
    let front := w.header.front_idx
    let back := 1 - front
    let fc := w.frame_count + 1
    let h := w.header
    let h' := if back = 0
      then { h with frame0 := fc, timestamp0_ns := now }
      else { h with frame1 := fc, timestamp1_ns := now }
    let h'' := { h' with published_length := size,
                         writer_heartbeat_ns := now, front_idx := back,
                         total_writes := h'.total_writes + 1,
                         total_bytes := h'.total_bytes + size }
    (true, { w with frame_count := fc, header := h'' })

/-- One writer-side operation on the cache-tuned tier. -/
inductive WOp where
  | write (data : List Nat) (size : Nat) (now : Int)
  | commitWrite (size : Nat) (now : Int)
deriving Repr, DecidableEq

/-- Application of a single cache-tuned writer operation. -/
def applyOp (w : Writer) (op : WOp) : Bool × Writer :=
  match op with
  | .write data size now => w.write data size now
  | .commitWrite size now => w.commitWrite size now

/-- State reached from `w` after running a list of writer operations. -/
def runOps (w : Writer) (ops : List WOp) : Writer :=
  ops.foldl (fun s op => (applyOp s op).2) w

/-- Reader-side state of `CASIR::Reader`: readiness, the constructed
maximum payload size, the last observed frame and timestamp, and the
dropped-frame counter. -/
structure Reader where
  is_initialized : Bool
  max_size : Nat
  last_frame : Nat
  last_timestamp_ns : Int
  dropped_frames : Nat
deriving Repr, DecidableEq

/-- Model of `CASIR::Reader::read` (casir.cpp lines 534-574): select the
front slot's frame counter; return `none` on no new frame; update the
dropped counter only when the last frame was positive and the gap exceeds
one; then, if the shared published length exceeds the reader's maximum
size, return `none` without copying and without updating the cursor;
otherwise copy that many bytes out and update the cursor. -/
def Reader.read (r : Reader) (h : Header) (buf0 buf1 : List Nat) :
    Option (List Nat) × Reader :=
  if !r.is_initialized then (none, r)
  else
    let front := h.front_idx
    let current_frame := if front = 0 then h.frame0 else h.frame1
    if current_frame = r.last_frame then (none, r)
    else
      let r' := if r.last_frame > 0 && current_frame > r.last_frame + 1
        then { r with dropped_frames :=
                 r.dropped_frames + (current_frame - r.last_frame - 1) }
        else r
      let data_size := h.published_length
      if data_size > r.max_size then (none, r')
      else
        let data := (if front = 0 then buf0 else buf1).take data_size
        let ts := if front = 0 then h.timestamp0_ns else h.timestamp1_ns
        (some data,
         { r' with last_frame := current_frame, last_timestamp_ns := ts })

/-- Iterated reads against an unchanged region snapshot. -/
def Reader.readN (r : Reader) (h : Header) (buf0 buf1 : List Nat) :
    Nat → Reader
  | 0 => r
  | n + 1 => Reader.readN (r.read h buf0 buf1).2 h buf0 buf1 n

/-- Frame number a reader observes on a header snapshot: the counter of
the slot selected by the front index. -/
def obsFrame (h : Header) : Nat :=
  if h.front_idx = 0 then h.frame0 else h.frame1

end CASIR

namespace SAHM

/-- Default ring size used when a directory entry records zero,
`SAHM::DEFAULT_RING_SIZE` in `include/sahm.hpp`. -/
def DEFAULT_RING_SIZE : Nat := 30

/-- One ring-buffer slot record, following `SAHM::RingSlot`: sequence
(zero means never written), timestamp, payload length, and the payload
area itself. -/
structure RingSlot where
  sequence : Nat
  timestamp_ns : Int
  data_size : Nat
  data : List Nat
deriving Repr, DecidableEq

/-- Slot record as zeroed by `DirectReader::init`. -/
def zeroSlot : RingSlot :=
  { sequence := 0, timestamp_ns := 0, data_size := 0, data := [] }

/-- One per-reader ring region, following `SAHM::RingBufferHeader` plus
its slot array. -/
structure Ring where
  ring_size : Nat
  slot_data_size : Nat
  write_idx : Nat
  total_writes : Nat
  slots : List RingSlot
deriving Repr, DecidableEq

/-- Ring region as created and zeroed by `DirectReader::init`
(sahm.cpp lines 360-377). -/
def freshRing (n cap : Nat) : Ring :=
  { ring_size := n, slot_data_size := cap, write_idx := 0
    total_writes := 0, slots := List.replicate n zeroSlot }

/-- Body of the fan-out loop of `DirectWriter::write` for one mapped ring
(sahm.cpp lines 146-168): copy the payload into the slot at the current
write index, store its metadata triple with sequence = total-writes + 1,
advance the write index modulo the mapping's ring size, store the new
total-writes. -/
def ringStep (rsize : Nat) (r : Ring) (data : List Nat) (size : Nat)
    (ts : Int) : Ring :=
  let idx := r.write_idx
  let seq := r.total_writes + 1
  let old := r.slots.getD idx zeroSlot
  let slot := { sequence := seq, timestamp_ns := ts, data_size := size
                data := BARQ.memcpyInto old.data data size : RingSlot }
  { r with slots := r.slots.set idx slot
           write_idx := (idx + 1) % rsize
           total_writes := seq }

/-- Body of the fan-out loop of `DirectWriter::commitSlots` for one mapped
ring (sahm.cpp lines 206-227): identical metadata protocol, without the
payload copy. -/
def ringCommit (rsize : Nat) (r : Ring) (size : Nat) (ts : Int) : Ring :=
  let idx := r.write_idx
  let seq := r.total_writes + 1
  let old := r.slots.getD idx zeroSlot
  let slot := { old with sequence := seq, timestamp_ns := ts
                         data_size := size }
  { r with slots := r.slots.set idx slot
           write_idx := (idx + 1) % rsize
           total_writes := seq }

/-- One directory entry of the control channel, following the per-entry
fields of `SAHM::ControlHeader`: active flag, ring-region name, declared
ring size. -/
structure DirEntry where
  active : Bool
  shm_name : String
  ring_size : Nat
deriving Repr, DecidableEq

/-- Directory entry as zeroed by `DirectWriter::init`
(sahm.cpp lines 73-77). -/
def emptyEntry : DirEntry :=
  { active := false, shm_name := "", ring_size := 0 }

/-- Step 1 of reader registration (sahm.cpp line 382): the successful
compare-and-swap on the entry's active flag. -/
def claimEntry (e : DirEntry) : DirEntry := { e with active := true }

/-- Step 2 of reader registration (sahm.cpp lines 384-385): the strncpy of
the reader's ring-region name into the entry. -/
def setEntryName (nm : String) (e : DirEntry) : DirEntry :=
  { e with shm_name := nm }

/-- Step 3 of reader registration (sahm.cpp line 386): the store of the
reader's ring size into the entry. -/
def setEntryRingSize (n : Nat) (e : DirEntry) : DirEntry :=
  { e with ring_size := n }

/-- Sequence of directory-entry states reachable during the successful
registration path of `DirectReader::init` (sahm.cpp lines 380-390),
starting from the state the claimed entry had just before the
compare-and-swap. -/
def regTrace (e : DirEntry) (nm : String) (n : Nat) : List DirEntry :=
  [e, claimEntry e, setEntryName nm (claimEntry e),
   setEntryRingSize n (setEntryName nm (claimEntry e))]

/-- Guard under which `DirectWriter::discoverReaders` proceeds to open an
entry's ring region (sahm.cpp lines 96-101): the entry is active and its
name is non-empty. -/
def writerWouldOpen (e : DirEntry) : Bool :=
  e.active && !(e.shm_name == "")

/-- Predicate the registration-order claim asserts of every reachable
directory-entry state: an active entry always has its name and ring size
already set. -/
def entryConsistent (e : DirEntry) : Bool :=
  !e.active || (!(e.shm_name == "") && !(e.ring_size == 0))

/-- One local per-reader mapping held by the fan-out writer, following
`DirectWriter::ReaderInfo`: the mapped ring region and the ring size
cached from the directory at discovery time. -/
structure Mapping where
  ring : Ring
  ring_size : Nat
deriving Repr, DecidableEq

/-- Writer-side state of `SAHM::DirectWriter`: readiness, the declared
per-slot capacity, and the table of per-reader mappings (`none` models an
invalid `ReaderInfo`). -/
structure DirectWriter where
  is_initialized : Bool
  max_slot_size : Nat
  readers : List (Option Mapping)
deriving Repr, DecidableEq

/-- One step of `DirectWriter::discoverReaders` (sahm.cpp lines 95-132)
for a single entry: an active entry with no local mapping is opened (the
`env` argument models what mapping the named region would yield; an empty
name or a failed open is skipped), an inactive entry's mapping is
dropped, anything else is kept. A ring size of zero defaults to 30. -/
def discoverOne (e : DirEntry) (env : Option Ring) (m : Option Mapping) :
    Option Mapping :=
  if e.active then
    match m with
    | some mm => some mm
    | none =>
      if e.shm_name == "" then none
      else
        match env with
        | none => none
        | some rg =>
          some { ring := rg
                 ring_size := if e.ring_size = 0 then DEFAULT_RING_SIZE
                              else e.ring_size }
  else none

/-- Model of `DirectWriter::discoverReaders`, walking the directory
entries with their would-be open results against the local mappings. -/
def discoverReaders : List DirEntry → List (Option Ring) →
    List (Option Mapping) → List (Option Mapping)
  | e :: es, v :: vs, m :: ms => discoverOne e v m :: discoverReaders es vs ms
  | _, _, ms => ms

/-- Model of `DirectWriter::write` (sahm.cpp lines 135-175): return 0 when
uninitialized or when the payload exceeds the declared capacity;
otherwise run reader discovery, push the frame into every valid mapping's
ring, and return the number of rings written to. -/
def DirectWriter.write (w : DirectWriter) (dir : List DirEntry)
    (env : List (Option Ring)) (data : List Nat) (size : Nat) (ts : Int) :
    Nat × DirectWriter :=
  if !w.is_initialized || size > w.max_slot_size then (0, w)
  else
    let rs := discoverReaders dir env w.readers
    let rs' := rs.map (Option.map (fun m =>
      { m with ring := ringStep m.ring_size m.ring data size ts }))
    (rs.countP (fun m => m.isSome), { w with readers := rs' })

/-- Model of `DirectWriter::commitSlots` (sahm.cpp lines 200-231): same
guard and fan-out as `write`, but over the current mappings without a
discovery pass and without the payload copy. -/
def DirectWriter.commitSlots (w : DirectWriter) (size : Nat) (ts : Int) :
    Nat × DirectWriter :=
  if !w.is_initialized || size > w.max_slot_size then (0, w)
  else
    let rs' := w.readers.map (Option.map (fun m =>
      { m with ring := ringCommit m.ring_size m.ring size ts }))
    (w.readers.countP (fun m => m.isSome), { w with readers := rs' })

/-- Iterated fan-out writes against a fixed directory and environment. -/
def writeIter (dir : List DirEntry) (env : List (Option Ring))
    (data : List Nat) (size : Nat) (ts : Int) :
    Nat → DirectWriter → DirectWriter
  | 0, w => w
  | n + 1, w => writeIter dir env data size ts n (w.write dir env data size ts).2

/-- Iterated single-ring fan-out steps with a fixed payload. -/
def ringIter (rsize : Nat) (data : List Nat) (size : Nat) (ts : Int) :
    Nat → Ring → Ring
  | 0, r => r
  | n + 1, r => ringIter rsize data size ts n (ringStep rsize r data size ts)

/-- Sequence number held by slot `i` of a ring of size `N` after `m`
writes from a fresh ring: zero when the slot was never written, otherwise
the sequence of the most recent write that landed on it. -/
def slotSeq (m N i : Nat) : Nat :=
  if i < m then i + 1 + N * ((m - i - 1) / N) else 0

end SAHM

namespace SIM

/-- Cache description produced by the platform probe, following
`SIM::CacheInfo` in `include/cache_utils.hpp`. -/
structure CacheInfo where
  l1d_size : Nat
  l1i_size : Nat
  l2_size : Nat
  l3_size : Nat
  line_size : Nat
  num_cores : Int
deriving Repr, DecidableEq

/-- Model of `CacheInfo::optimal_prefetch_distance`
(cache_utils.hpp lines 42-44): a quarter of the L2 size when L2 is known,
64 KiB otherwise. -/
def CacheInfo.optimal_prefetch_distance (c : CacheInfo) : Nat :=
  if c.l2_size > 0 then c.l2_size / 4 else 64 * 1024

/-- Model of `CacheInfo::optimal_chunk_size`
(cache_utils.hpp lines 46-48): half of the L3 size when L3 is known,
1 MiB otherwise. -/
def CacheInfo.optimal_chunk_size (c : CacheInfo) : Nat :=
  if c.l3_size > 0 then c.l3_size / 2 else 1024 * 1024

end SIM

namespace Shm

/-- Host-wide shared-memory object namespace: a table binding names to
region identities, plus a supply of fresh identities. -/
structure Sys where
  regions : List (String × Nat)
  next_id : Nat
deriving Repr, DecidableEq

/-- Model of `shm_unlink(name)`: the binding for the name, if any, is
removed; the region object itself survives for holders of a mapping. -/
def Sys.unlinkName (s : Sys) (nm : String) : Sys :=
  { s with regions := s.regions.filter (fun p => !(p.1 == nm)) }

/-- Presence of a binding for a name. -/
def Sys.hasName (s : Sys) (nm : String) : Bool :=
  s.regions.any (fun p => p.1 == nm)

/-- Model of `shm_open(name, O_CREAT | O_RDWR | O_EXCL)`: fails when the
name is bound, otherwise binds the name to a fresh region. -/
def Sys.openExcl (s : Sys) (nm : String) : Option (Nat × Sys) :=
  if s.hasName nm then none
  else some (s.next_id,
    { regions := (nm, s.next_id) :: s.regions, next_id := s.next_id + 1 })

/-- Model of `shm_open(name, O_CREAT | O_RDWR)` without `O_EXCL`: returns
the existing region when the name is bound, otherwise binds a fresh
one. -/
def Sys.openCreate (s : Sys) (nm : String) : Nat × Sys :=
  match s.regions.find? (fun p => p.1 == nm) with
  | some p => (p.2, s)
  | none => (s.next_id,
    { regions := (nm, s.next_id) :: s.regions, next_id := s.next_id + 1 })

/-- Region-creation sequence of `BARQ::Writer::init` (barq.cpp lines
99-104) and `CASIR::Writer::init` (casir.cpp lines 117-124): unlink the
name unconditionally, then create with `O_EXCL`. -/
def initExcl (s : Sys) (nm : String) : Option (Nat × Sys) :=
  (s.unlinkName nm).openExcl nm

/-- Region-creation sequence of `SAHM::DirectWriter::init` (sahm.cpp
lines 45-48): unlink the name unconditionally, then create without
`O_EXCL`. -/
def initCreate (s : Sys) (nm : String) : Nat × Sys :=
  (s.unlinkName nm).openCreate nm

end Shm

section Claims

/-- Helper: after filtering out all pairs named `nm`, no pair named `nm`
remains. -/
theorem Shm.any_name_filter (nm : String) (l : List (String × Nat)) :
    (l.filter (fun p => !(p.1 == nm))).any (fun p => p.1 == nm) = false := by
  induction l with
  | nil => rfl
  | cons p t ih =>
    by_cases hp : p.1 == nm
    · simp only [List.filter_cons, hp]
      exact ih
    · simp only [List.filter_cons, hp, List.any_cons, ih]
      simp [hp]

/-- Helper: after filtering out all pairs named `nm`, searching for a pair
named `nm` finds nothing. -/
theorem Shm.find_name_filter (nm : String) (l : List (String × Nat)) :
    (l.filter (fun p => !(p.1 == nm))).find? (fun p => p.1 == nm) = none := by
  induction l with
  | nil => rfl
  | cons p t ih =>
    by_cases hp : p.1 == nm
    · simp only [List.filter_cons, hp]
      exact ih
    · simp [List.filter_cons, hp, List.find?, ih]

/-- Helper: unlinking a name removes its binding. -/
theorem Shm.hasName_unlinkName (s : Shm.Sys) (nm : String) :
    (s.unlinkName nm).hasName nm = false := by
  have h := Shm.any_name_filter nm s.regions
  simp only [Shm.Sys.unlinkName, Shm.Sys.hasName]
  exact h

/-- Helper: searching the post-unlink table for the name finds nothing. -/
theorem Shm.find_unlinkName (s : Shm.Sys) (nm : String) :
    (s.unlinkName nm).regions.find? (fun p => p.1 == nm) = none := by
  have h := Shm.find_name_filter nm s.regions
  simp only [Shm.Sys.unlinkName]
  exact h

/-- Helper: the unlink-then-exclusive-create sequence of the double-buffer
writers always succeeds and binds a fresh region. -/
theorem Shm.initExcl_eq (s : Shm.Sys) (nm : String) :
    Shm.initExcl s nm = some (s.next_id,
      { regions := (nm, s.next_id) :: (s.unlinkName nm).regions,
        next_id := s.next_id + 1 }) := by
  unfold Shm.initExcl Shm.Sys.openExcl
  rw [Shm.hasName_unlinkName]
  rfl

/-- Helper: the unlink-then-create sequence of the fan-out writer always
succeeds and binds a fresh region. -/
theorem Shm.initCreate_eq (s : Shm.Sys) (nm : String) :
    Shm.initCreate s nm = (s.next_id,
      { regions := (nm, s.next_id) :: (s.unlinkName nm).regions,
        next_id := s.next_id + 1 }) := by
  unfold Shm.initCreate Shm.Sys.openCreate
  rw [Shm.find_unlinkName]
  rfl

/-- C9: writer initialization in all three engines unlinks the requested
name unconditionally before creating its own region, so creation never
fails because the name is already bound; a second writer initializing the
same name succeeds and rebinds the name to a fresh region distinct from
the first writer's, so exclusive create enforces no single-writer
exclusivity. -/
theorem C9_unlink_before_create (s : Shm.Sys) (nm : String) :
    (∃ id1 s1, Shm.initExcl s nm = some (id1, s1) ∧
       ∃ id2 s2, Shm.initExcl s1 nm = some (id2, s2) ∧ id2 ≠ id1 ∧
         s2.regions.find? (fun p => p.1 == nm) = some (nm, id2)) ∧
    (Shm.initCreate s nm).1 = s.next_id := by
  constructor
  · refine ⟨s.next_id, _, Shm.initExcl_eq s nm,
      s.next_id + 1, _, Shm.initExcl_eq _ nm, by omega, ?_⟩
    simp [List.find?]
  · rw [Shm.initCreate_eq]

/-- C7 counterexample: a cache description with a 4 KiB L2 and no
detected L3 yields a prefetch distance of 1 KiB, far below the claimed
64 KiB floor, and a chunk size of 1 MiB rather than L3/2 = 0. -/
theorem C7_floor_counterexample :
    SIM.CacheInfo.optimal_prefetch_distance
      { l1d_size := 32768, l1i_size := 32768, l2_size := 4096,
        l3_size := 0, line_size := 64, num_cores := 1 } = 1024 ∧
    (1024 : Nat) < 64 * 1024 ∧
    SIM.CacheInfo.optimal_chunk_size
      { l1d_size := 32768, l1i_size := 32768, l2_size := 4096,
        l3_size := 0, line_size := 64, num_cores := 1 } = 1048576 ∧
    ¬ (1048576 : Nat) = 0 / 2 := by
  refine ⟨rfl, by norm_num, rfl, by norm_num⟩

/-- C7 (amended): the optimal prefetch distance equals L2/4 whenever an
L2 size is known, with no 64 KiB floor; 64 KiB is only the fallback for
an unknown (zero) L2 size. Likewise the optimal chunk size equals L3/2
whenever an L3 size is known, with 1 MiB as the fallback for an unknown
L3 size. -/
theorem C7_prefetch_and_chunk (c : SIM.CacheInfo) :
    (0 < c.l2_size → c.optimal_prefetch_distance = c.l2_size / 4) ∧
    (c.l2_size = 0 → c.optimal_prefetch_distance = 64 * 1024) ∧
    (0 < c.l3_size → c.optimal_chunk_size = c.l3_size / 2) ∧
    (c.l3_size = 0 → c.optimal_chunk_size = 1024 * 1024) := by
  unfold SIM.CacheInfo.optimal_prefetch_distance SIM.CacheInfo.optimal_chunk_size
  refine ⟨fun h => ?_, fun h => ?_, fun h => ?_, fun h => ?_⟩ <;> simp [h]

/-- C7 witness: the default cache description (256 KiB L2, 8 MiB L3)
instantiates the amended statement. -/
theorem C7_prefetch_and_chunk_witness :
    SIM.CacheInfo.optimal_prefetch_distance
      { l1d_size := 32768, l1i_size := 32768, l2_size := 262144,
        l3_size := 8388608, line_size := 64, num_cores := 4 } = 262144 / 4 ∧
    SIM.CacheInfo.optimal_chunk_size
      { l1d_size := 32768, l1i_size := 32768, l2_size := 262144,
        l3_size := 8388608, line_size := 64, num_cores := 4 } = 8388608 / 2 :=
  ⟨(C7_prefetch_and_chunk _).1 (by norm_num),
   (C7_prefetch_and_chunk _).2.2.1 (by norm_num)⟩

/-- C4 counterexample: in the registration sequence of the fan-out
reader, the directory-entry state reached immediately after the
compare-and-swap (trace index 1) has its active flag set while its name
and ring size are still at their zeroed values, contradicting the claimed
name-and-size-before-active order. -/
theorem C4_active_first_counterexample :
    (SAHM.regTrace SAHM.emptyEntry "/chan_reader_42" 30)[1]? =
      some { active := true, shm_name := "", ring_size := 0 } ∧
    SAHM.entryConsistent
      { active := true, shm_name := "", ring_size := 0 } = false := by
  constructor
  · rfl
  · rfl

/-- C4 (amended): registration claims the entry by test-and-set on the
active flag first, and only then writes the ring-region name and ring
size; immediately after the claim the entry is observably active with its
name and ring size still holding their previous values, and only the
final trace state carries the reader's name and ring size. The
discovering writer compensates: it skips an active entry whose name is
still empty, so it never opens an entry in the claimed-but-unnamed
state. -/
theorem C4_registration_order (e : SAHM.DirEntry) (nm : String) (n : Nat) :
    (SAHM.regTrace e nm n)[1]? = some (SAHM.claimEntry e) ∧
    (SAHM.claimEntry e).active = true ∧
    (SAHM.claimEntry e).shm_name = e.shm_name ∧
    (SAHM.claimEntry e).ring_size = e.ring_size ∧
    (SAHM.regTrace e nm n)[3]? =
      some { active := true, shm_name := nm, ring_size := n } ∧
    (e.shm_name = "" → SAHM.writerWouldOpen (SAHM.claimEntry e) = false) := by
  refine ⟨rfl, rfl, rfl, rfl, rfl, fun h => ?_⟩
  simp [SAHM.writerWouldOpen, SAHM.claimEntry, h]

/-- C4 witness: the amended statement instantiated on a freshly zeroed
directory entry. -/
theorem C4_registration_order_witness :
    (SAHM.regTrace SAHM.emptyEntry "/c_reader_7" 30)[1]? =
      some (SAHM.claimEntry SAHM.emptyEntry) ∧
    (SAHM.claimEntry SAHM.emptyEntry).active = true ∧
    (SAHM.claimEntry SAHM.emptyEntry).shm_name = SAHM.emptyEntry.shm_name ∧
    (SAHM.claimEntry SAHM.emptyEntry).ring_size = SAHM.emptyEntry.ring_size ∧
    (SAHM.regTrace SAHM.emptyEntry "/c_reader_7" 30)[3]? =
      some { active := true, shm_name := "/c_reader_7", ring_size := 30 } ∧
    (SAHM.emptyEntry.shm_name = "" →
      SAHM.writerWouldOpen (SAHM.claimEntry SAHM.emptyEntry) = false) :=
  C4_registration_order SAHM.emptyEntry "/c_reader_7" 30

/-- C8: the fan-out writer's write and commitSlots return 0 when the
writer is uninitialized or the payload exceeds the declared capacity, and
otherwise return the number of valid reader mappings written to — which
is also 0 when no reader is registered, so the return value alone cannot
distinguish a bounds violation from an empty reader set. -/
theorem C8_fanout_return_conflation (w : SAHM.DirectWriter)
    (dir : List SAHM.DirEntry) (env : List (Option SAHM.Ring))
    (data : List Nat) (size : Nat) (ts : Int) :
    (w.is_initialized = false ∨ w.max_slot_size < size →
      (w.write dir env data size ts).1 = 0 ∧ (w.commitSlots size ts).1 = 0) ∧
    (w.is_initialized = true → size ≤ w.max_slot_size →
      (w.write dir env data size ts).1 =
        (SAHM.discoverReaders dir env w.readers).countP (fun m => m.isSome) ∧
      (w.commitSlots size ts).1 =
        w.readers.countP (fun m => m.isSome)) := by
  constructor
  · intro h
    rcases h with h | h <;>
      simp [SAHM.DirectWriter.write, SAHM.DirectWriter.commitSlots, h]
  · intro h1 h2
    simp [SAHM.DirectWriter.write, SAHM.DirectWriter.commitSlots, h1,
      Nat.not_lt.mpr h2]

/-- C8 witness: a ready writer with capacity 8 and no registered readers
returns 0 from a successful 1-byte write, the same value an uninitialized
writer returns. -/
theorem C8_fanout_return_conflation_witness :
    ((⟨false, 8, []⟩ : SAHM.DirectWriter).is_initialized = false ∨
       (⟨false, 8, []⟩ : SAHM.DirectWriter).max_slot_size < 1 →
      ((⟨false, 8, []⟩ : SAHM.DirectWriter).write [] [] [5] 1 0).1 = 0 ∧
      ((⟨false, 8, []⟩ : SAHM.DirectWriter).commitSlots 1 0).1 = 0) ∧
    (((⟨true, 8, []⟩ : SAHM.DirectWriter).write [] [] [5] 1 0).1 =
      (SAHM.discoverReaders [] [] []).countP (fun m => m.isSome) ∧
     ((⟨true, 8, []⟩ : SAHM.DirectWriter).commitSlots 1 0).1 =
      ([] : List (Option SAHM.Mapping)).countP (fun m => m.isSome)) :=
  ⟨(C8_fanout_return_conflation ⟨false, 8, []⟩ [] [] [5] 1 0).1,
   (C8_fanout_return_conflation ⟨true, 8, []⟩ [] [] [5] 1 0).2 rfl (by decide)⟩

/-- Helper: a cache-tuned read that detects a new frame whose published
length exceeds the reader's maximum returns no data and preserves every
cursor field except the dropped counter. -/
theorem CASIR.read_oversize_step (r : CASIR.Reader) (h : CASIR.Header)
    (b0 b1 : List Nat) (hin : r.is_initialized = true)
    (hne : CASIR.obsFrame h ≠ r.last_frame)
    (hov : r.max_size < h.published_length) :
    (r.read h b0 b1).1 = none ∧
    (r.read h b0 b1).2.is_initialized = true ∧
    (r.read h b0 b1).2.max_size = r.max_size ∧
    (r.read h b0 b1).2.last_frame = r.last_frame ∧
    (r.read h b0 b1).2.last_timestamp_ns = r.last_timestamp_ns := by
  have hne' : ¬ ((if h.front_idx = 0 then h.frame0 else h.frame1) = r.last_frame) := by
    simpa [CASIR.obsFrame] using hne
  unfold CASIR.Reader.read
  rw [hin]
  simp only [Bool.not_true, Bool.false_eq_true, if_false]
  rw [if_neg hne']
  rw [if_pos hov]
  by_cases hd : (r.last_frame > 0 &&
      decide ((if h.front_idx = 0 then h.frame0 else h.frame1) > r.last_frame + 1)) = true
  · simp [hd, hin]
  · simp [hd, hin]

/-- Helper: iterated oversized reads never move the cursor. -/
theorem CASIR.readN_oversize (h : CASIR.Header) (b0 b1 : List Nat) :
    ∀ (n : Nat) (r : CASIR.Reader), r.is_initialized = true →
      CASIR.obsFrame h ≠ r.last_frame → r.max_size < h.published_length →
      (r.readN h b0 b1 n).is_initialized = true ∧
      (r.readN h b0 b1 n).max_size = r.max_size ∧
      (r.readN h b0 b1 n).last_frame = r.last_frame ∧
      (r.readN h b0 b1 n).last_timestamp_ns = r.last_timestamp_ns := by
  intro n
  induction n with
  | zero =>
    intro r h1 _ _
    exact ⟨h1, rfl, rfl, rfl⟩
  | succ n ih =>
    intro r h1 hne hov
    have step := CASIR.read_oversize_step r h b0 b1 h1 hne hov
    have ih' := ih (r.read h b0 b1).2 step.2.1
      (by rw [step.2.2.2.1]; exact hne) (by rw [step.2.2.1]; exact hov)
    simp only [CASIR.Reader.readN]
    exact ⟨ih'.1, by rw [ih'.2.1, step.2.2.1], by rw [ih'.2.2.1, step.2.2.2.1],
      by rw [ih'.2.2.2, step.2.2.2.2]⟩

/-- C10: when the published payload length exceeds the cache-tuned
reader's constructed maximum size, the copying read returns false without
copying any bytes and without updating the last-observed frame or
timestamp, and every further read against the same region state again
reports no new data, indefinitely. -/
theorem C10_oversized_read_rejected (r : CASIR.Reader) (h : CASIR.Header)
    (b0 b1 : List Nat) (hin : r.is_initialized = true)
    (hne : CASIR.obsFrame h ≠ r.last_frame)
    (hov : r.max_size < h.published_length) :
    (r.read h b0 b1).1 = none ∧
    (r.read h b0 b1).2.last_frame = r.last_frame ∧
    (r.read h b0 b1).2.last_timestamp_ns = r.last_timestamp_ns ∧
    ∀ n, ((r.readN h b0 b1 n).read h b0 b1).1 = none := by
  have step := CASIR.read_oversize_step r h b0 b1 hin hne hov
  refine ⟨step.1, step.2.2.2.1, step.2.2.2.2, fun n => ?_⟩
  have hn := CASIR.readN_oversize h b0 b1 n r hin hne hov
  exact (CASIR.read_oversize_step _ h b0 b1 hn.1
    (by rw [hn.2.2.1]; exact hne) (by rw [hn.2.1]; exact hov)).1

/-- C10 witness: a reader of capacity 4 facing a published length of 9
rejects the frame and stays put. -/
theorem C10_oversized_read_rejected_witness :
    (CASIR.Reader.read ⟨true, 4, 0, 0, 0⟩
       ⟨0, 3, 0, 0, 0, 9, 0, 0, 0⟩ [1, 2] [3, 4]).1 = none ∧
    (CASIR.Reader.read ⟨true, 4, 0, 0, 0⟩
       ⟨0, 3, 0, 0, 0, 9, 0, 0, 0⟩ [1, 2] [3, 4]).2.last_frame =
      (⟨true, 4, 0, 0, 0⟩ : CASIR.Reader).last_frame ∧
    (CASIR.Reader.read ⟨true, 4, 0, 0, 0⟩
       ⟨0, 3, 0, 0, 0, 9, 0, 0, 0⟩ [1, 2] [3, 4]).2.last_timestamp_ns =
      (⟨true, 4, 0, 0, 0⟩ : CASIR.Reader).last_timestamp_ns ∧
    ∀ n, ((CASIR.Reader.readN ⟨true, 4, 0, 0, 0⟩
       ⟨0, 3, 0, 0, 0, 9, 0, 0, 0⟩ [1, 2] [3, 4] n).read
       ⟨0, 3, 0, 0, 0, 9, 0, 0, 0⟩ [1, 2] [3, 4]).1 = none :=
  C10_oversized_read_rejected ⟨true, 4, 0, 0, 0⟩
    ⟨0, 3, 0, 0, 0, 9, 0, 0, 0⟩ [1, 2] [3, 4] rfl (by decide) (by decide)

/-- C2 counterexample: a reader that attaches late (last-observed
sequence still 0) and first observes sequence 5 returns the frame but
leaves its dropped counter at 0, not at the claimed 5 − 0 − 1 = 4. -/
theorem C2_first_read_gap_counterexample :
    (BARQ.Reader.getLatest ⟨true, 0, 0⟩
       ⟨0, 5, 0, 0, 0, 3, 0, 0, 5, 15⟩).1.isSome = true ∧
    (BARQ.Reader.getLatest ⟨true, 0, 0⟩
       ⟨0, 5, 0, 0, 0, 3, 0, 0, 5, 15⟩).2.dropped = 0 ∧
    ¬ (BARQ.Reader.getLatest ⟨true, 0, 0⟩
       ⟨0, 5, 0, 0, 0, 3, 0, 0, 5, 15⟩).2.dropped = 0 + (5 - 0 - 1) := by
  refine ⟨rfl, rfl, by decide⟩

/-- C2 (amended): on a non-null return with observed sequence `seq` and
last-observed sequence `last`, the dropped counter increases by
`seq − last − 1` exactly when `last > 0` and `seq > last + 1`, and is
unchanged otherwise — in particular it is unchanged on the very first
non-null return after attach (`last = 0`), whatever `seq` is. In the
cache-tuned tier the same update is applied as soon as a new frame is
detected, even if the read then rejects the frame for size. -/
theorem C2_dropped_counter (r : BARQ.Reader) (h : BARQ.Header)
    (rc : CASIR.Reader) (hc : CASIR.Header) (b0 b1 : List Nat)
    (hB : (r.getLatest h).1.isSome = true)
    (hCin : rc.is_initialized = true)
    (hCnew : CASIR.obsFrame hc ≠ rc.last_frame) :
    ((r.getLatest h).2.dropped =
       if 0 < r.last_seq ∧ r.last_seq + 1 < BARQ.obsSeq h
       then r.dropped + (BARQ.obsSeq h - r.last_seq - 1) else r.dropped) ∧
    ((r.getLatest h).2.last_seq = BARQ.obsSeq h) ∧
    ((rc.read hc b0 b1).2.dropped_frames =
       if 0 < rc.last_frame ∧ rc.last_frame + 1 < CASIR.obsFrame hc
       then rc.dropped_frames + (CASIR.obsFrame hc - rc.last_frame - 1)
       else rc.dropped_frames) := by
  refine ⟨?_, ?_, ?_⟩
  case _ | _ =>
    unfold BARQ.Reader.getLatest at *
    by_cases hin : r.is_initialized = true
    · rw [hin] at *
      simp only [Bool.not_true, Bool.false_eq_true, if_false] at *
      by_cases hnew : (if h.front_idx = 0 then h.seq0 else h.seq1) = r.last_seq
      · rw [if_pos hnew] at hB; simp at hB
      · rw [if_neg hnew] at *
        by_cases hd : (r.last_seq > 0 &&
            decide ((if h.front_idx = 0 then h.seq0 else h.seq1) > r.last_seq + 1)) = true
        · simp only [hd, if_true]
          simp only [Bool.and_eq_true, decide_eq_true_eq] at hd
          simp [BARQ.obsSeq, hd.1, hd.2]
        · simp only [hd, if_false]
          simp only [Bool.and_eq_true, decide_eq_true_eq, not_and_or] at hd
          rcases hd with hd | hd <;> simp [BARQ.obsSeq, hd]
    · simp only [Bool.not_eq_true] at hin
      rw [hin] at hB
      simp at hB
  case _ =>
    have hnew' : ¬ ((if hc.front_idx = 0 then hc.frame0 else hc.frame1) = rc.last_frame) := by
      simpa [CASIR.obsFrame] using hCnew
    unfold CASIR.Reader.read
    rw [hCin]
    simp only [Bool.not_true, Bool.false_eq_true, if_false]
    rw [if_neg hnew']
    by_cases hd : (rc.last_frame > 0 &&
        decide ((if hc.front_idx = 0 then hc.frame0 else hc.frame1) > rc.last_frame + 1)) = true
    · simp only [hd, if_true]
      simp only [Bool.and_eq_true, decide_eq_true_eq] at hd
      by_cases hov : hc.published_length > rc.max_size
      · rw [if_pos hov]
        simp [CASIR.obsFrame, hd.1, hd.2]
      · rw [if_neg hov]
        simp [CASIR.obsFrame, hd.1, hd.2]
    · simp only [hd, if_false]
      simp only [Bool.and_eq_true, decide_eq_true_eq, not_and_or] at hd
      by_cases hov : hc.published_length > rc.max_size
      · rw [if_pos hov]
        rcases hd with hd | hd <;> simp [CASIR.obsFrame, hd]
      · rw [if_neg hov]
        rcases hd with hd | hd <;> simp [CASIR.obsFrame, hd]

/-- C2 witness: a reader at last-observed sequence 2 seeing sequence 6
adds 3 to its dropped counter, in both tiers. -/
theorem C2_dropped_counter_witness :
    ((BARQ.Reader.getLatest ⟨true, 2, 0⟩ ⟨0, 6, 0, 0, 0, 3, 0, 0, 6, 18⟩).2.dropped =
       if 0 < (2 : Nat) ∧ (2 : Nat) + 1 < BARQ.obsSeq ⟨0, 6, 0, 0, 0, 3, 0, 0, 6, 18⟩
       then 0 + (BARQ.obsSeq ⟨0, 6, 0, 0, 0, 3, 0, 0, 6, 18⟩ - 2 - 1) else 0) ∧
    ((BARQ.Reader.getLatest ⟨true, 2, 0⟩ ⟨0, 6, 0, 0, 0, 3, 0, 0, 6, 18⟩).2.last_seq =
       BARQ.obsSeq ⟨0, 6, 0, 0, 0, 3, 0, 0, 6, 18⟩) ∧
    ((CASIR.Reader.read ⟨true, 8, 2, 0, 0⟩ ⟨0, 6, 0, 0, 0, 3, 0, 6, 18⟩ [1] [2]).2.dropped_frames =
       if 0 < (2 : Nat) ∧ (2 : Nat) + 1 < CASIR.obsFrame ⟨0, 6, 0, 0, 0, 3, 0, 6, 18⟩
       then 0 + (CASIR.obsFrame ⟨0, 6, 0, 0, 0, 3, 0, 6, 18⟩ - 2 - 1) else 0) :=
  C2_dropped_counter ⟨true, 2, 0⟩ ⟨0, 6, 0, 0, 0, 3, 0, 0, 6, 18⟩
    ⟨true, 8, 2, 0, 0⟩ ⟨0, 6, 0, 0, 0, 3, 0, 6, 18⟩ [1] [2]
    (by decide) rfl (by decide)

/-- C3 counterexample: a successful immediate write on the basic tier
leaves total-writes and total-bytes at 0 instead of incrementing them. -/
theorem C3_write_skips_counters_counterexample :
    ((BARQ.Writer.afterInit 4 0 [0, 0, 0, 0] [0, 0, 0, 0]).write [7] 1 5).1 = true ∧
    ((BARQ.Writer.afterInit 4 0 [0, 0, 0, 0] [0, 0, 0, 0]).write [7] 1 5).2.header.total_writes = 0 ∧
    ((BARQ.Writer.afterInit 4 0 [0, 0, 0, 0] [0, 0, 0, 0]).write [7] 1 5).2.header.total_bytes = 0 ∧
    ¬ ((BARQ.Writer.afterInit 4 0 [0, 0, 0, 0] [0, 0, 0, 0]).write [7] 1 5).2.header.total_writes =
      (BARQ.Writer.afterInit 4 0 [0, 0, 0, 0] [0, 0, 0, 0]).header.total_writes + 1 := by
  refine ⟨rfl, rfl, rfl, by decide⟩

/-- C3 (amended): every successful immediate write updates the heartbeat
but leaves total-writes and total-bytes untouched, in both tiers; only
the commit path increments total-writes by 1 and total-bytes by the
committed size (alongside the heartbeat update). -/
theorem C3_heartbeat_and_counters (wB : BARQ.Writer) (wC : CASIR.Writer)
    (d e : List Nat) (size szc : Nat) (now nowc : Int)
    (hw : (wB.write d size now).1 = true)
    (hc : (wB.commit size now).1 = true)
    (hwc : (wC.write e szc nowc).1 = true)
    (hcc : (wC.commitWrite szc nowc).1 = true) :
    ((wB.write d size now).2.header.heartbeat_ns = now ∧
     (wB.write d size now).2.header.total_writes = wB.header.total_writes ∧
     (wB.write d size now).2.header.total_bytes = wB.header.total_bytes) ∧
    ((wB.commit size now).2.header.heartbeat_ns = now ∧
     (wB.commit size now).2.header.total_writes = wB.header.total_writes + 1 ∧
     (wB.commit size now).2.header.total_bytes = wB.header.total_bytes + size) ∧
    ((wC.write e szc nowc).2.header.writer_heartbeat_ns = nowc ∧
     (wC.write e szc nowc).2.header.total_writes = wC.header.total_writes ∧
     (wC.write e szc nowc).2.header.total_bytes = wC.header.total_bytes) ∧
    ((wC.commitWrite szc nowc).2.header.writer_heartbeat_ns = nowc ∧
     (wC.commitWrite szc nowc).2.header.total_writes = wC.header.total_writes + 1 ∧
     (wC.commitWrite szc nowc).2.header.total_bytes = wC.header.total_bytes + szc) := by
  refine ⟨?_, ?_, ?_, ?_⟩
  · unfold BARQ.Writer.write at *
    by_cases hg : (!wB.is_initialized || decide (size > wB.max_size)) = true
    · rw [if_pos hg] at hw; simp at hw
    · rw [if_neg hg]
      by_cases hb : 1 - wB.header.front_idx = 0 <;> simp [hb]
  · unfold BARQ.Writer.commit at *
    by_cases hg : (!wB.is_initialized || decide (size > wB.max_size)) = true
    · rw [if_pos hg] at hc; simp at hc
    · rw [if_neg hg]
      by_cases hb : 1 - wB.header.front_idx = 0 <;> simp [hb]
  · unfold CASIR.Writer.write at *
    by_cases hg : (!wC.is_initialized || decide (szc > wC.max_size)) = true
    · rw [if_pos hg] at hwc; simp at hwc
    · rw [if_neg hg]
      by_cases hb : 1 - wC.header.front_idx = 0 <;> simp [hb]
  · unfold CASIR.Writer.commitWrite at *
    by_cases hg : (!wC.is_initialized || decide (szc > wC.max_size)) = true
    · rw [if_pos hg] at hcc; simp at hcc
    · rw [if_neg hg]
      by_cases hb : 1 - wC.header.front_idx = 0 <;> simp [hb]

/-- C3 witness: the amended statement instantiated on freshly initialized
writers of capacity 4 with a 2-byte payload. -/
theorem C3_heartbeat_and_counters_witness :
    (((BARQ.Writer.afterInit 4 0 [0] [0]).write [7, 8] 2 5).2.header.heartbeat_ns = 5 ∧
     ((BARQ.Writer.afterInit 4 0 [0] [0]).write [7, 8] 2 5).2.header.total_writes =
       (BARQ.Writer.afterInit 4 0 [0] [0]).header.total_writes ∧
     ((BARQ.Writer.afterInit 4 0 [0] [0]).write [7, 8] 2 5).2.header.total_bytes =
       (BARQ.Writer.afterInit 4 0 [0] [0]).header.total_bytes) ∧
    (((BARQ.Writer.afterInit 4 0 [0] [0]).commit 2 5).2.header.heartbeat_ns = 5 ∧
     ((BARQ.Writer.afterInit 4 0 [0] [0]).commit 2 5).2.header.total_writes =
       (BARQ.Writer.afterInit 4 0 [0] [0]).header.total_writes + 1 ∧
     ((BARQ.Writer.afterInit 4 0 [0] [0]).commit 2 5).2.header.total_bytes =
       (BARQ.Writer.afterInit 4 0 [0] [0]).header.total_bytes + 2) ∧
    (((CASIR.Writer.afterInit 4 [0] [0]).write [7, 8] 2 5).2.header.writer_heartbeat_ns = 5 ∧
     ((CASIR.Writer.afterInit 4 [0] [0]).write [7, 8] 2 5).2.header.total_writes =
       (CASIR.Writer.afterInit 4 [0] [0]).header.total_writes ∧
     ((CASIR.Writer.afterInit 4 [0] [0]).write [7, 8] 2 5).2.header.total_bytes =
       (CASIR.Writer.afterInit 4 [0] [0]).header.total_bytes) ∧
    (((CASIR.Writer.afterInit 4 [0] [0]).commitWrite 2 5).2.header.writer_heartbeat_ns = 5 ∧
     ((CASIR.Writer.afterInit 4 [0] [0]).commitWrite 2 5).2.header.total_writes =
       (CASIR.Writer.afterInit 4 [0] [0]).header.total_writes + 1 ∧
     ((CASIR.Writer.afterInit 4 [0] [0]).commitWrite 2 5).2.header.total_bytes =
       (CASIR.Writer.afterInit 4 [0] [0]).header.total_bytes + 2) :=
  C3_heartbeat_and_counters (BARQ.Writer.afterInit 4 0 [0] [0])
    (CASIR.Writer.afterInit 4 [0] [0]) [7, 8] [7, 8] 2 2 5 5
    rfl rfl rfl rfl

/-- C6 counterexample: on the cache-tuned tier, publishing a 1-byte frame
and then a 2-byte frame leaves slot 1 still holding the first frame
(frame counter 1), but the only payload-length metadata — the shared
published-length word — reads 2, not the first frame's 1: the tier has no
per-slot length field. -/
theorem C6_shared_length_counterexample :
    (((CASIR.Writer.afterInit 4 [0, 0, 0, 0] [0, 0, 0, 0]).write [7] 1 10).2.write
        [8, 9] 2 20).2.header.frame1 = 1 ∧
    (((CASIR.Writer.afterInit 4 [0, 0, 0, 0] [0, 0, 0, 0]).write [7] 1 10).2.write
        [8, 9] 2 20).2.header.published_length = 2 ∧
    ¬ (((CASIR.Writer.afterInit 4 [0, 0, 0, 0] [0, 0, 0, 0]).write [7] 1 10).2.write
        [8, 9] 2 20).2.header.published_length = 1 := by
  refine ⟨rfl, rfl, by decide⟩

/-- C6 (amended): only the basic tier keeps a per-slot metadata triple
with its own length field, so there a publish leaves the other slot's
recorded length unchanged (after publishing sizes s1 then s2, the slot
still holding the s1 frame records length s1). The cache-tuned tier keeps
per-slot frame counters and timestamps but a single shared
published-length word, which the second publish overwrites with s2. -/
theorem C6_per_slot_length (maxB maxC s1 s2 : Nat)
    (d1 d2 c0 c1 e0 e1 : List Nat) (n0 n1 n2 : Int)
    (h1 : s1 ≤ maxB) (h2 : s2 ≤ maxB) (h3 : s1 ≤ maxC) (h4 : s2 ≤ maxC) :
    ((((BARQ.Writer.afterInit maxB n0 c0 c1).write d1 s1 n1).2.write d2 s2 n2).2.header.seq1 = 1 ∧
     (((BARQ.Writer.afterInit maxB n0 c0 c1).write d1 s1 n1).2.write d2 s2 n2).2.header.len1 = s1 ∧
     (((BARQ.Writer.afterInit maxB n0 c0 c1).write d1 s1 n1).2.write d2 s2 n2).2.header.seq0 = 2 ∧
     (((BARQ.Writer.afterInit maxB n0 c0 c1).write d1 s1 n1).2.write d2 s2 n2).2.header.len0 = s2) ∧
    ((((CASIR.Writer.afterInit maxC e0 e1).write d1 s1 n1).2.write d2 s2 n2).2.header.frame1 = 1 ∧
     (((CASIR.Writer.afterInit maxC e0 e1).write d1 s1 n1).2.write d2 s2 n2).2.header.frame0 = 2 ∧
     (((CASIR.Writer.afterInit maxC e0 e1).write d1 s1 n1).2.write d2 s2 n2).2.header.published_length = s2) := by
  constructor
  · simp [BARQ.Writer.write, BARQ.Writer.afterInit, Nat.not_lt.mpr h1, Nat.not_lt.mpr h2]
  · simp [CASIR.Writer.write, CASIR.Writer.afterInit, Nat.not_lt.mpr h3, Nat.not_lt.mpr h4]

/-- C6 witness: the amended statement instantiated with capacities 4 and
sizes 1 and 2. -/
theorem C6_per_slot_length_witness :
    ((((BARQ.Writer.afterInit 4 0 [0] [0]).write [7] 1 10).2.write [8, 9] 2 20).2.header.seq1 = 1 ∧
     (((BARQ.Writer.afterInit 4 0 [0] [0]).write [7] 1 10).2.write [8, 9] 2 20).2.header.len1 = 1 ∧
     (((BARQ.Writer.afterInit 4 0 [0] [0]).write [7] 1 10).2.write [8, 9] 2 20).2.header.seq0 = 2 ∧
     (((BARQ.Writer.afterInit 4 0 [0] [0]).write [7] 1 10).2.write [8, 9] 2 20).2.header.len0 = 2) ∧
    ((((CASIR.Writer.afterInit 4 [0] [0]).write [7] 1 10).2.write [8, 9] 2 20).2.header.frame1 = 1 ∧
     (((CASIR.Writer.afterInit 4 [0] [0]).write [7] 1 10).2.write [8, 9] 2 20).2.header.frame0 = 2 ∧
     (((CASIR.Writer.afterInit 4 [0] [0]).write [7] 1 10).2.write [8, 9] 2 20).2.header.published_length = 2) :=
  C6_per_slot_length 4 4 1 2 [7] [8, 9] [0] [0] [0] [0] 0 10 20
    (by omega) (by omega) (by omega) (by omega)

/-- Helper: a successful basic-tier publish increments the frame counter
and stores it as the new front slot's sequence. -/
theorem BARQ.publish_core (w : BARQ.Writer) (op : BARQ.WOp)
    (hs : (BARQ.applyOp w op).1 = true) :
    (BARQ.applyOp w op).2.frame_count = w.frame_count + 1 ∧
    BARQ.obsSeq (BARQ.applyOp w op).2.header = w.frame_count + 1 := by
  cases op with
  | write d size now =>
    simp only [BARQ.applyOp] at hs ⊢
    unfold BARQ.Writer.write at *
    by_cases hg : (!w.is_initialized || decide (size > w.max_size)) = true
    · rw [if_pos hg] at hs; simp at hs
    · rw [if_neg hg]
      by_cases hb : 1 - w.header.front_idx = 0 <;> simp [hb, BARQ.obsSeq]
  | commit size now =>
    simp only [BARQ.applyOp] at hs ⊢
    unfold BARQ.Writer.commit at *
    by_cases hg : (!w.is_initialized || decide (size > w.max_size)) = true
    · rw [if_pos hg] at hs; simp at hs
    · rw [if_neg hg]
      by_cases hb : 1 - w.header.front_idx = 0 <;> simp [hb, BARQ.obsSeq]

/-- Helper: along any basic-tier operation both slot sequences stay
bounded by the frame counter, and the frame counter never decreases. -/
theorem BARQ.applyOp_inv (w : BARQ.Writer) (op : BARQ.WOp)
    (h0 : w.header.seq0 ≤ w.frame_count) (h1 : w.header.seq1 ≤ w.frame_count) :
    (BARQ.applyOp w op).2.header.seq0 ≤ (BARQ.applyOp w op).2.frame_count ∧
    (BARQ.applyOp w op).2.header.seq1 ≤ (BARQ.applyOp w op).2.frame_count ∧
    w.frame_count ≤ (BARQ.applyOp w op).2.frame_count := by
  cases op with
  | write d size now =>
    simp only [BARQ.applyOp]
    unfold BARQ.Writer.write
    by_cases hg : (!w.is_initialized || decide (size > w.max_size)) = true
    · rw [if_pos hg]; exact ⟨h0, h1, Nat.le_refl _⟩
    · rw [if_neg hg]
      by_cases hb : 1 - w.header.front_idx = 0 <;> simp [hb] <;> omega
  | commit size now =>
    simp only [BARQ.applyOp]
    unfold BARQ.Writer.commit
    by_cases hg : (!w.is_initialized || decide (size > w.max_size)) = true
    · rw [if_pos hg]; exact ⟨h0, h1, Nat.le_refl _⟩
    · rw [if_neg hg]
      by_cases hb : 1 - w.header.front_idx = 0 <;> simp [hb] <;> omega

/-- Helper: the slot-sequence bound and frame-counter monotonicity carry
over whole basic-tier runs. -/
theorem BARQ.runOps_inv (ops : List BARQ.WOp) :
    ∀ w : BARQ.Writer, w.header.seq0 ≤ w.frame_count →
      w.header.seq1 ≤ w.frame_count →
      (BARQ.runOps w ops).header.seq0 ≤ (BARQ.runOps w ops).frame_count ∧
      (BARQ.runOps w ops).header.seq1 ≤ (BARQ.runOps w ops).frame_count ∧
      w.frame_count ≤ (BARQ.runOps w ops).frame_count := by
  induction ops with
  | nil =>
    intro w h0 h1
    exact ⟨h0, h1, Nat.le_refl _⟩
  | cons op t ih =>
    intro w h0 h1
    have ha := BARQ.applyOp_inv w op h0 h1
    have ht := ih (BARQ.applyOp w op).2 ha.1 ha.2.1
    simp only [BARQ.runOps, List.foldl_cons] at *
    exact ⟨ht.1, ht.2.1, Nat.le_trans ha.2.2 ht.2.2⟩

/-- Helper: a basic-tier run over a concatenation factors through its
prefix. -/
theorem BARQ.runOps_append (w : BARQ.Writer) (pre suf : List BARQ.WOp) :
    BARQ.runOps w (pre ++ suf) = BARQ.runOps (BARQ.runOps w pre) suf := by
  simp [BARQ.runOps, List.foldl_append]

/-- Helper: a successful cache-tuned publish increments the frame counter
and stores it as the new front slot's frame number. -/
theorem CASIR.casir_publish_core (w : CASIR.Writer) (op : CASIR.WOp)
    (hs : (CASIR.applyOp w op).1 = true) :
    (CASIR.applyOp w op).2.frame_count = w.frame_count + 1 ∧
    CASIR.obsFrame (CASIR.applyOp w op).2.header = w.frame_count + 1 := by
  cases op with
  | write d size now =>
    simp only [CASIR.applyOp] at hs ⊢
    unfold CASIR.Writer.write at *
    by_cases hg : (!w.is_initialized || decide (size > w.max_size)) = true
    · rw [if_pos hg] at hs; simp at hs
    · rw [if_neg hg]
      by_cases hb : 1 - w.header.front_idx = 0 <;> simp [hb, CASIR.obsFrame]
  | commitWrite size now =>
    simp only [CASIR.applyOp] at hs ⊢
    unfold CASIR.Writer.commitWrite at *
    by_cases hg : (!w.is_initialized || decide (size > w.max_size)) = true
    · rw [if_pos hg] at hs; simp at hs
    · rw [if_neg hg]
      by_cases hb : 1 - w.header.front_idx = 0 <;> simp [hb, CASIR.obsFrame]

/-- Helper: along any cache-tuned operation both slot frame numbers stay
bounded by the frame counter, and the frame counter never decreases. -/
theorem CASIR.casir_applyOp_inv (w : CASIR.Writer) (op : CASIR.WOp)
    (h0 : w.header.frame0 ≤ w.frame_count) (h1 : w.header.frame1 ≤ w.frame_count) :
    (CASIR.applyOp w op).2.header.frame0 ≤ (CASIR.applyOp w op).2.frame_count ∧
    (CASIR.applyOp w op).2.header.frame1 ≤ (CASIR.applyOp w op).2.frame_count ∧
    w.frame_count ≤ (CASIR.applyOp w op).2.frame_count := by
  cases op with
  | write d size now =>
    simp only [CASIR.applyOp]
    unfold CASIR.Writer.write
    by_cases hg : (!w.is_initialized || decide (size > w.max_size)) = true
    · rw [if_pos hg]; exact ⟨h0, h1, Nat.le_refl _⟩
    · rw [if_neg hg]
      by_cases hb : 1 - w.header.front_idx = 0 <;> simp [hb] <;> omega
  | commitWrite size now =>
    simp only [CASIR.applyOp]
    unfold CASIR.Writer.commitWrite
    by_cases hg : (!w.is_initialized || decide (size > w.max_size)) = true
    · rw [if_pos hg]; exact ⟨h0, h1, Nat.le_refl _⟩
    · rw [if_neg hg]
      by_cases hb : 1 - w.header.front_idx = 0 <;> simp [hb] <;> omega

/-- Helper: the slot-frame bound and frame-counter monotonicity carry
over whole cache-tuned runs. -/
theorem CASIR.casir_runOps_inv (ops : List CASIR.WOp) :
    ∀ w : CASIR.Writer, w.header.frame0 ≤ w.frame_count →
      w.header.frame1 ≤ w.frame_count →
      (CASIR.runOps w ops).header.frame0 ≤ (CASIR.runOps w ops).frame_count ∧
      (CASIR.runOps w ops).header.frame1 ≤ (CASIR.runOps w ops).frame_count ∧
      w.frame_count ≤ (CASIR.runOps w ops).frame_count := by
  induction ops with
  | nil =>
    intro w h0 h1
    exact ⟨h0, h1, Nat.le_refl _⟩
  | cons op t ih =>
    intro w h0 h1
    have ha := CASIR.casir_applyOp_inv w op h0 h1
    have ht := ih (CASIR.applyOp w op).2 ha.1 ha.2.1
    simp only [CASIR.runOps, List.foldl_cons] at *
    exact ⟨ht.1, ht.2.1, Nat.le_trans ha.2.2 ht.2.2⟩

/-- Helper: a cache-tuned run over a concatenation factors through its
prefix. -/
theorem CASIR.casir_runOps_append (w : CASIR.Writer) (pre suf : List CASIR.WOp) :
    CASIR.runOps w (pre ++ suf) = CASIR.runOps (CASIR.runOps w pre) suf := by
  simp [CASIR.runOps, List.foldl_append]

/-- C1: on both double-buffer tiers, any successful publish (write or
commit) reached after an arbitrary run from a fresh writer stores
sequence number equal to the previous frame count plus one — in
particular 1 on the first publish — and this stored sequence strictly
exceeds both slot sequences at every earlier point of the run. -/
theorem C1_publish_sequencing
    (maxB maxC : Nat) (now0 : Int) (c0 c1 e0 e1 : List Nat)
    (preB sufB : List BARQ.WOp) (opB : BARQ.WOp)
    (preC sufC : List CASIR.WOp) (opC : CASIR.WOp)
    (hB : (BARQ.applyOp (BARQ.runOps (BARQ.Writer.afterInit maxB now0 c0 c1)
            (preB ++ sufB)) opB).1 = true)
    (hC : (CASIR.applyOp (CASIR.runOps (CASIR.Writer.afterInit maxC e0 e1)
            (preC ++ sufC)) opC).1 = true) :
    (let wp := BARQ.runOps (BARQ.Writer.afterInit maxB now0 c0 c1) preB
     let w := BARQ.runOps (BARQ.Writer.afterInit maxB now0 c0 c1) (preB ++ sufB)
     let s := BARQ.obsSeq (BARQ.applyOp w opB).2.header
     s = w.frame_count + 1 ∧ (w.frame_count = 0 → s = 1) ∧
     wp.header.seq0 < s ∧ wp.header.seq1 < s) ∧
    (let vp := CASIR.runOps (CASIR.Writer.afterInit maxC e0 e1) preC
     let v := CASIR.runOps (CASIR.Writer.afterInit maxC e0 e1) (preC ++ sufC)
     let t := CASIR.obsFrame (CASIR.applyOp v opC).2.header
     t = v.frame_count + 1 ∧ (v.frame_count = 0 → t = 1) ∧
     vp.header.frame0 < t ∧ vp.header.frame1 < t) := by
  constructor
  · have hpub := BARQ.publish_core _ opB hB
    have hpre := BARQ.runOps_inv preB (BARQ.Writer.afterInit maxB now0 c0 c1)
      (by simp [BARQ.Writer.afterInit]) (by simp [BARQ.Writer.afterInit])
    have hsuf := BARQ.runOps_inv sufB
      (BARQ.runOps (BARQ.Writer.afterInit maxB now0 c0 c1) preB) hpre.1 hpre.2.1
    rw [BARQ.runOps_append] at hpub
    refine ⟨?_, ?_, ?_, ?_⟩
    · rw [BARQ.runOps_append]; exact hpub.2
    · intro h
      rw [BARQ.runOps_append] at h ⊢
      rw [hpub.2, h]
    · rw [BARQ.runOps_append]
      have := hpre.1
      have := hsuf.2.2
      omega
    · rw [BARQ.runOps_append]
      have := hpre.2.1
      have := hsuf.2.2
      omega
  · have hpub := CASIR.casir_publish_core _ opC hC
    have hpre := CASIR.casir_runOps_inv preC (CASIR.Writer.afterInit maxC e0 e1)
      (by simp [CASIR.Writer.afterInit]) (by simp [CASIR.Writer.afterInit])
    have hsuf := CASIR.casir_runOps_inv sufC
      (CASIR.runOps (CASIR.Writer.afterInit maxC e0 e1) preC) hpre.1 hpre.2.1
    rw [CASIR.casir_runOps_append] at hpub
    refine ⟨?_, ?_, ?_, ?_⟩
    · rw [CASIR.casir_runOps_append]; exact hpub.2
    · intro h
      rw [CASIR.casir_runOps_append] at h ⊢
      rw [hpub.2, h]
    · rw [CASIR.casir_runOps_append]
      have := hpre.1
      have := hsuf.2.2
      omega
    · rw [CASIR.casir_runOps_append]
      have := hpre.2.1
      have := hsuf.2.2
      omega

/-- C1 witness: a first publish on each tier (a basic-tier commit and a
cache-tuned write) stores sequence 1 from a fresh writer. -/
theorem C1_publish_sequencing_witness :
    (let wp := BARQ.runOps (BARQ.Writer.afterInit 1 0 [0] [0]) []
     let w := BARQ.runOps (BARQ.Writer.afterInit 1 0 [0] [0]) ([] ++ [])
     let s := BARQ.obsSeq (BARQ.applyOp w (BARQ.WOp.commit 0 3)).2.header
     s = w.frame_count + 1 ∧ (w.frame_count = 0 → s = 1) ∧
     wp.header.seq0 < s ∧ wp.header.seq1 < s) ∧
    (let vp := CASIR.runOps (CASIR.Writer.afterInit 1 [0] [0]) []
     let v := CASIR.runOps (CASIR.Writer.afterInit 1 [0] [0]) ([] ++ [])
     let t := CASIR.obsFrame (CASIR.applyOp v (CASIR.WOp.write [] 0 4)).2.header
     t = v.frame_count + 1 ∧ (v.frame_count = 0 → t = 1) ∧
     vp.header.frame0 < t ∧ vp.header.frame1 < t) :=
  C1_publish_sequencing 1 1 0 [0] [0] [0] [0] [] [] (BARQ.WOp.commit 0 3)
    [] [] (CASIR.WOp.write [] 0 4) (by decide) (by decide)

/-- Helper: the slot at the current write position receives the new
sequence. -/
theorem SAHM.slotSeq_write (N m : Nat) (hN : 0 < N) :
    SAHM.slotSeq (m + 1) N (m % N) = m + 1 := by
  have hle : m % N ≤ m := Nat.mod_le m N
  have hdm := Nat.div_add_mod m N
  unfold SAHM.slotSeq
  rw [if_pos (by omega)]
  have h1 : m + 1 - m % N - 1 = N * (m / N) := by omega
  rw [h1, Nat.mul_div_cancel_left _ hN]
  omega

/-- Helper: a write leaves every other slot's sequence unchanged. -/
theorem SAHM.slotSeq_skip (N m i : Nat) (_hN : 0 < N) (hi : i < N)
    (hne : i ≠ m % N) :
    SAHM.slotSeq (m + 1) N i = SAHM.slotSeq m N i := by
  unfold SAHM.slotSeq
  by_cases him : i < m
  · rw [if_pos (by omega), if_pos him]
    have hkey : (m - i) / N = (m - i - 1) / N := by
      have hnd : ¬ (N ∣ (m - i)) := by
        intro hd
        rcases hd with ⟨q, hq⟩
        apply hne
        have hm : m = N * q + i := by omega
        rw [hm, Nat.mul_add_mod, Nat.mod_eq_of_lt hi]
      have h2 : m - i = (m - i - 1) + 1 := by omega
      rw [h2, Nat.succ_div, if_neg (by rw [← h2]; exact hnd)]
      simp
    have h3 : m + 1 - i - 1 = m - i := by omega
    rw [h3, hkey]
  · by_cases him1 : i < m + 1
    · exfalso
      have hiem : i = m := by omega
      have hmN : m < N := by omega
      exact hne (by rw [hiem, Nat.mod_eq_of_lt hmN])
    · rw [if_neg him1, if_neg him]

/-- Helper: one fan-out step advances the ring invariant — write index
tracks the write count modulo the ring size and every slot holds the
sequence of the last write that landed on it. -/
theorem SAHM.ringStep_spec (N m : Nat) (data : List Nat) (size : Nat)
    (ts : Int) (hN : 0 < N) (r : SAHM.Ring)
    (hidx : r.write_idx = m % N) (htw : r.total_writes = m)
    (hlen : r.slots.length = N)
    (hseq : ∀ i, i < N →
      (r.slots.getD i SAHM.zeroSlot).sequence = SAHM.slotSeq m N i) :
    (SAHM.ringStep N r data size ts).write_idx = (m + 1) % N ∧
    (SAHM.ringStep N r data size ts).total_writes = m + 1 ∧
    (SAHM.ringStep N r data size ts).slots.length = N ∧
    ∀ i, i < N →
      ((SAHM.ringStep N r data size ts).slots.getD i SAHM.zeroSlot).sequence =
        SAHM.slotSeq (m + 1) N i := by
  refine ⟨?_, ?_, ?_, ?_⟩
  · show (r.write_idx + 1) % N = (m + 1) % N
    rw [hidx, Nat.mod_add_mod]
  · show r.total_writes + 1 = m + 1
    rw [htw]
  · show (r.slots.set r.write_idx _).length = N
    rw [List.length_set, hlen]
  · intro i hi
    show ((r.slots.set r.write_idx _).getD i SAHM.zeroSlot).sequence =
      SAHM.slotSeq (m + 1) N i
    rw [List.getD_eq_getElem?_getD]
    by_cases heq : i = r.write_idx
    · have hlt : r.write_idx < r.slots.length := by
        rw [hlen, hidx]
        exact Nat.mod_lt m hN
      rw [← heq] at hlt ⊢
      rw [List.getElem?_set_eq_of_lt _ hlt]
      have hieq : i = m % N := by rw [heq, hidx]
      rw [hieq, SAHM.slotSeq_write N m hN]
      show r.total_writes + 1 = m + 1
      rw [htw]
    · rw [List.getElem?_set_ne (fun h => heq h.symm)]
      rw [← List.getD_eq_getElem?_getD, hseq i hi]
      rw [hidx] at heq
      exact (SAHM.slotSeq_skip N m i hN hi heq).symm

/-- Helper: the ring invariant carries over iterated fan-out steps. -/
theorem SAHM.ringIter_spec (N : Nat) (data : List Nat) (size : Nat)
    (ts : Int) (hN : 0 < N) :
    ∀ (n m : Nat) (r : SAHM.Ring),
      r.write_idx = m % N → r.total_writes = m → r.slots.length = N →
      (∀ i, i < N →
        (r.slots.getD i SAHM.zeroSlot).sequence = SAHM.slotSeq m N i) →
      (SAHM.ringIter N data size ts n r).write_idx = (m + n) % N ∧
      (SAHM.ringIter N data size ts n r).total_writes = m + n ∧
      (SAHM.ringIter N data size ts n r).slots.length = N ∧
      ∀ i, i < N →
        ((SAHM.ringIter N data size ts n r).slots.getD i SAHM.zeroSlot).sequence =
          SAHM.slotSeq (m + n) N i := by
  intro n
  induction n with
  | zero =>
    intro m r h1 h2 h3 h4
    exact ⟨h1, h2, h3, h4⟩
  | succ n ih =>
    intro m r h1 h2 h3 h4
    have hs := SAHM.ringStep_spec N m data size ts hN r h1 h2 h3 h4
    have ht := ih (m + 1) (SAHM.ringStep N r data size ts)
      hs.1 hs.2.1 hs.2.2.1 hs.2.2.2
    have hrw : m + 1 + n = m + (n + 1) := by omega
    rw [hrw] at ht
    exact ht

/-- Helper: a fan-out write against a single registered, mapped reader
returns 1 and applies exactly one ring step to that reader's ring. -/
theorem SAHM.write_single (cap size : Nat) (mp : SAHM.Mapping)
    (e : SAHM.DirEntry) (v : Option SAHM.Ring) (data : List Nat) (ts : Int)
    (he : e.active = true) (hs : size ≤ cap) :
    SAHM.DirectWriter.write ⟨true, cap, [some mp]⟩ [e] [v] data size ts =
      (1, ⟨true, cap,
        [some { mp with
                ring := SAHM.ringStep mp.ring_size mp.ring data size ts }]⟩) := by
  unfold SAHM.DirectWriter.write
  rw [if_neg (by simp [Nat.not_lt.mpr hs])]
  unfold SAHM.discoverReaders SAHM.discoverOne
  rw [he]
  show (1, _) = (1, _)
  rfl

/-- Helper: iterated fan-out writes against a single registered reader
reduce to iterated ring steps. -/
theorem SAHM.writeIter_single (cap size : Nat) (e : SAHM.DirEntry)
    (v : Option SAHM.Ring) (data : List Nat) (ts : Int)
    (he : e.active = true) (hs : size ≤ cap) :
    ∀ (n : Nat) (mp : SAHM.Mapping),
      SAHM.writeIter [e] [v] data size ts n ⟨true, cap, [some mp]⟩ =
        ⟨true, cap, [some { mp with
          ring := SAHM.ringIter mp.ring_size data size ts n mp.ring }]⟩ := by
  intro n
  induction n with
  | zero =>
    intro mp
    rfl
  | succ n ih =>
    intro mp
    show SAHM.writeIter [e] [v] data size ts n
        (SAHM.DirectWriter.write ⟨true, cap, [some mp]⟩ [e] [v] data size ts).2 = _
    rw [SAHM.write_single cap size mp e v data ts he hs]
    rw [ih { mp with ring := SAHM.ringStep mp.ring_size mp.ring data size ts }]
    rfl

/-- Helper: closed form of the slot sequences after wrapping a fresh ring
of size `N` with `N + k` writes. -/
theorem SAHM.slotSeq_wrap (N k i : Nat) (hk0 : 0 < k) (hkN : k ≤ N)
    (hi : i < N) :
    SAHM.slotSeq (N + k) N i = if i < k then N + i + 1 else i + 1 := by
  have hN : 0 < N := by omega
  unfold SAHM.slotSeq
  rw [if_pos (by omega)]
  by_cases hik : i < k
  · rw [if_pos hik]
    have h1 : N + k - i - 1 = (k - i - 1) + N := by omega
    rw [h1, Nat.add_div_right _ hN, Nat.div_eq_of_lt (by omega)]
    omega
  · rw [if_neg hik]
    rw [Nat.div_eq_of_lt (by omega)]
    omega

/-- C5: from a freshly initialized ring of size N owned by one registered
reader, N + k fan-out writes (0 < k ≤ N) all succeed (each returns 1) and
leave slots 0 … k−1 holding sequences N+1 … N+k, slots k … N−1 holding
sequences k+1 … N, total-writes at N + k, and the write index at
k mod N. -/
theorem C5_ring_wrap (N k cap size : Nat) (data : List Nat) (ts : Int)
    (nm : String) (hk0 : 0 < k) (hkN : k ≤ N) (hs : size ≤ cap) :
    ∃ mp : SAHM.Mapping,
      (SAHM.writeIter [⟨true, nm, N⟩] [none] data size ts (N + k)
        ⟨true, cap, [some ⟨SAHM.freshRing N cap, N⟩]⟩).readers = [some mp] ∧
      mp.ring.total_writes = N + k ∧
      mp.ring.write_idx = k % N ∧
      (∀ i, i < N → (mp.ring.slots.getD i SAHM.zeroSlot).sequence =
        if i < k then N + i + 1 else i + 1) ∧
      ∀ j, ((SAHM.writeIter [⟨true, nm, N⟩] [none] data size ts j
        ⟨true, cap, [some ⟨SAHM.freshRing N cap, N⟩]⟩).write
          [⟨true, nm, N⟩] [none] data size ts).1 = 1 := by
  have hN : 0 < N := by omega
  have hiter := SAHM.writeIter_single cap size ⟨true, nm, N⟩ none data ts
    rfl hs
  have hfresh : ∀ i, i < N →
      ((SAHM.freshRing N cap).slots.getD i SAHM.zeroSlot).sequence =
        SAHM.slotSeq 0 N i := by
    intro i hi
    show ((List.replicate N SAHM.zeroSlot).getD i SAHM.zeroSlot).sequence = _
    rw [List.getD_eq_getElem?_getD, List.getElem?_replicate]
    simp [SAHM.freshRing, SAHM.zeroSlot, SAHM.slotSeq, hi]
  have hspec := SAHM.ringIter_spec N data size ts hN (N + k) 0
    (SAHM.freshRing N cap) (by simp [SAHM.freshRing]) rfl
    (by simp [SAHM.freshRing]) hfresh
  rw [Nat.zero_add] at hspec
  refine ⟨⟨SAHM.ringIter N data size ts (N + k) (SAHM.freshRing N cap), N⟩,
    ?_, ?_, ?_, ?_, ?_⟩
  · rw [hiter (N + k) ⟨SAHM.freshRing N cap, N⟩]
  · exact hspec.2.1
  · show (SAHM.ringIter N data size ts (N + k) (SAHM.freshRing N cap)).write_idx = k % N
    rw [hspec.1, Nat.add_mod_left]
  · intro i hi
    show ((SAHM.ringIter N data size ts (N + k)
      (SAHM.freshRing N cap)).slots.getD i SAHM.zeroSlot).sequence = _
    rw [hspec.2.2.2 i hi, SAHM.slotSeq_wrap N k i hk0 hkN hi]
  · intro j
    rw [hiter j ⟨SAHM.freshRing N cap, N⟩]
    rw [SAHM.write_single cap size _ ⟨true, nm, N⟩ none data ts rfl hs]

/-- C5 witness: a ring of size 3 receiving 5 writes ends with slots
holding sequences 4, 5, 3, total-writes 5 and write index 2. -/
theorem C5_ring_wrap_witness :
    ∃ mp : SAHM.Mapping,
      (SAHM.writeIter [⟨true, "/c", 3⟩] [none] [9] 1 0 (3 + 2)
        ⟨true, 4, [some ⟨SAHM.freshRing 3 4, 3⟩]⟩).readers = [some mp] ∧
      mp.ring.total_writes = 3 + 2 ∧
      mp.ring.write_idx = 2 % 3 ∧
      (∀ i, i < 3 → (mp.ring.slots.getD i SAHM.zeroSlot).sequence =
        if i < 2 then 3 + i + 1 else i + 1) ∧
      ∀ j, ((SAHM.writeIter [⟨true, "/c", 3⟩] [none] [9] 1 0 j
        ⟨true, 4, [some ⟨SAHM.freshRing 3 4, 3⟩]⟩).write
          [⟨true, "/c", 3⟩] [none] [9] 1 0).1 = 1 :=
  C5_ring_wrap 3 2 4 1 [9] 0 "/c" (by omega) (by omega) (by omega)

end Claims
